import Mathlib

/-!
Shallow embedding of the student-management data layer
(`models.py`, `my_select.py`, `seed.py`) and proofs about its
specified behaviour.

Storage rows are modelled as structures, the database as lists of rows,
and each of the ten analytical queries of `my_select.py` as a pure
function of the database value.  SQL joins are modelled by nested
`flatMap`/`filter`, `GROUP BY` by key de-duplication, `ORDER BY` by an
insertion sort over the row list, `AVG` as an exact rational, and
`ROUND(x, 2)` as integer rounding of `100 * x`.
-/

namespace Uni

/-- Row of the `groups` table (`models.py`, class `Groups`). -/
structure Group where
  id : Nat
  name : String
deriving Repr, DecidableEq

/-- Row of the `teachers` table (`models.py`, class `Teachers`). -/
structure Teacher where
  id : Nat
  name : String
  email : String
deriving Repr, DecidableEq

/-- Row of the `subjects` table (`models.py`, class `Subjects`). -/
structure Subject where
  id : Nat
  name : String
  teacherId : Nat
deriving Repr, DecidableEq

/-- Row of the `students` table (`models.py`, class `Students`). -/
structure Student where
  id : Nat
  name : String
  email : String
  groupId : Nat
deriving Repr, DecidableEq

/-- Row of the `grades` table (`models.py`, class `Grades`).
`value` is an `Int` column; the range restriction `0 <= value <= 100`
is a check constraint of the table, not of the type. -/
structure Grade where
  id : Nat
  studentId : Nat
  subjectId : Nat
  value : Int
  createdAt : Int
deriving Repr, DecidableEq

/-- The whole relational store: one list of rows per table. -/
structure DB where
  groups : List Group
  teachers : List Teacher
  subjects : List Subject
  students : List Student
  grades : List Grade
deriving Repr, DecidableEq

def emptyDB : DB := ⟨[], [], [], [], []⟩

/-- Exact average of a list of integer grade values, as a rational. -/
def avgList (l : List Int) : ℚ := (l.sum : ℚ) / (l.length : ℚ)

/-- SQL `ROUND(x, 2)`: round to two decimal places. -/
def round2 (q : ℚ) : ℚ := ((round (q * 100) : ℤ) : ℚ) / 100

/-! ### ORDER BY: insertion sort over row lists -/

def insertSorted (r : α → α → Bool) (x : α) : List α → List α
  | [] => [x]
  | y :: ys => if r x y then x :: y :: ys else y :: insertSorted r x ys

def sortBy (r : α → α → Bool) (l : List α) : List α := l.foldr (insertSorted r) []

theorem insertSorted_perm (r : α → α → Bool) (x : α) (l : List α) :
    (insertSorted r x l).Perm (x :: l) := by
  induction l with
  | nil => simp [insertSorted]
  | cons y ys ih =>
    by_cases h : r x y
    · simp [insertSorted, h]
    · simp only [insertSorted, if_neg h]
      exact ((ih.cons y).trans (List.Perm.swap x y ys))

theorem sortBy_perm (r : α → α → Bool) (l : List α) : (sortBy r l).Perm l := by
  induction l with
  | nil => simp [sortBy]
  | cons x xs ih =>
    have h1 : sortBy r (x :: xs) = insertSorted r x (sortBy r xs) := rfl
    rw [h1]
    exact (insertSorted_perm r x (sortBy r xs)).trans (ih.cons x)

theorem mem_sortBy {r : α → α → Bool} {l : List α} {a : α} :
    a ∈ sortBy r l ↔ a ∈ l := (sortBy_perm r l).mem_iff

theorem pairwise_insertSorted (r : α → α → Bool)
    (total : ∀ a b, r a b = true ∨ r b a = true)
    (htrans : ∀ a b c, r a b = true → r b c = true → r a c = true)
    (x : α) (l : List α) (hl : l.Pairwise (fun a b => r a b = true)) :
    (insertSorted r x l).Pairwise (fun a b => r a b = true) := by
  induction l with
  | nil => simp [insertSorted]
  | cons y ys ih =>
    rcases List.pairwise_cons.mp hl with ⟨hy, hys⟩
    by_cases h : r x y
    · simp only [insertSorted, if_pos h]
      refine List.pairwise_cons.mpr ⟨?_, hl⟩
      intro b hb
      rcases List.mem_cons.mp hb with rfl | hb
      · exact h
      · exact htrans x y b h (hy b hb)
    · simp only [insertSorted, if_neg h]
      refine List.pairwise_cons.mpr ⟨?_, ih hys⟩
      intro b hb
      rcases List.mem_cons.mp ((insertSorted_perm r x ys).mem_iff.mp hb) with heq | hb
      · rw [heq]
        rcases total x y with hxy | hyx
        · exact absurd hxy h
        · exact hyx
      · exact hy b hb

theorem pairwise_sortBy (r : α → α → Bool)
    (total : ∀ a b, r a b = true ∨ r b a = true)
    (htrans : ∀ a b c, r a b = true → r b c = true → r a c = true)
    (l : List α) : (sortBy r l).Pairwise (fun a b => r a b = true) := by
  induction l with
  | nil => simp [sortBy]
  | cons x xs ih => exact pairwise_insertSorted r total htrans x (sortBy r xs) ih

theorem nodup_sortBy (r : α → α → Bool) {l : List α} (h : l.Nodup) :
    (sortBy r l).Nodup := h.perm (sortBy_perm r l).symm

/-! ### The ten queries of `my_select.py` -/

/-- Join rows of `students JOIN grades ON grades.student_id = students.id`
(used by `select_1`). -/
def sgRows (db : DB) : List (Student × Grade) :=
  db.students.flatMap fun st =>
    (db.grades.filter fun g => decide (g.studentId = st.id)).map fun g => (st, g)

/-- The `GROUP BY students.id, students.name, students.email` key of a join row. -/
def studentKey (t : Student × Grade) : Nat × String × String :=
  (t.1.id, t.1.name, t.1.email)

/-- SQL `AVG(grades.value)` over the join rows of one group-by key. -/
def avgForKey (rows : List (Student × Grade)) (k : Nat × String × String) : ℚ :=
  avgList ((rows.filter fun t => decide (studentKey t = k)).map fun t => t.2.value)

/-- Query `select_1`: top 5 students by average grade, descending, rounded output. -/
def select_1 (db : DB) : List (Nat × String × String × ℚ) :=
  let rows := sgRows db
  let keys := (rows.map studentKey).dedup
  let sorted := sortBy (fun a b => decide (avgForKey rows b ≤ avgForKey rows a)) keys
  (sorted.take 5).map fun k => (k.1, k.2.1, k.2.2, round2 (avgForKey rows k))

/-- Join rows of `students JOIN grades JOIN subjects` (used by `select_2`). -/
def sgsRows (db : DB) : List (Student × Grade × Subject) :=
  db.students.flatMap fun st =>
    (db.grades.filter fun g => decide (g.studentId = st.id)).flatMap fun g =>
      (db.subjects.filter fun sub => decide (sub.id = g.subjectId)).map fun sub =>
        (st, g, sub)

def avgForKey3 (rows : List (Student × Grade × Subject)) (k : Nat × String × String) : ℚ :=
  avgList ((rows.filter fun t => decide ((t.1.id, t.1.name, t.1.email) = k)).map
    fun t => t.2.1.value)

/-- Query `select_2`: best student (highest average) in the named subject, or `none`. -/
def select_2 (db : DB) (subject_name : String) : Option (Nat × String × String × ℚ) :=
  let rows := (sgsRows db).filter fun t => decide (t.2.2.name = subject_name)
  let keys := (rows.map fun t => (t.1.id, t.1.name, t.1.email)).dedup
  let sorted := sortBy (fun a b => decide (avgForKey3 rows b ≤ avgForKey3 rows a)) keys
  sorted.head?.map fun k => (k.1, k.2.1, k.2.2, round2 (avgForKey3 rows k))

/-- Join rows of `groups JOIN students JOIN grades JOIN subjects`
(used by `select_3` and `select_7`). -/
def gsgsRows (db : DB) : List (Group × Student × Grade × Subject) :=
  db.groups.flatMap fun gr =>
    (db.students.filter fun st => decide (st.groupId = gr.id)).flatMap fun st =>
      (db.grades.filter fun g => decide (g.studentId = st.id)).flatMap fun g =>
        (db.subjects.filter fun sub => decide (sub.id = g.subjectId)).map fun sub =>
          (gr, st, g, sub)

def avgForGroupKey (rows : List (Group × Student × Grade × Subject))
    (k : Nat × String) : ℚ :=
  avgList ((rows.filter fun t => decide ((t.1.id, t.1.name) = k)).map
    fun t => t.2.2.1.value)

/-- Query `select_3`: per-group average in the named subject, descending by average. -/
def select_3 (db : DB) (subject_name : String) : List (Nat × String × ℚ) :=
  let rows := (gsgsRows db).filter fun t => decide (t.2.2.2.name = subject_name)
  let keys := (rows.map fun t => (t.1.id, t.1.name)).dedup
  let sorted := sortBy (fun a b => decide (avgForGroupKey rows b ≤ avgForGroupKey rows a)) keys
  sorted.map fun k => (k.1, k.2, round2 (avgForGroupKey rows k))

/-- Query `select_4`: overall average of every grade (`NULL`, i.e. `none`, on an
empty grade table; the Python function returns the scalar unchanged). -/
def select_4 (db : DB) : Option ℚ :=
  if db.grades.isEmpty then none
  else some (round2 (avgList (db.grades.map fun g => g.value)))

/-- Query `select_5`: subjects taught by the named teacher, alphabetical. -/
def select_5 (db : DB) (teacher_name : String) : List (Nat × String) :=
  let rows := db.subjects.flatMap fun sub =>
    (db.teachers.filter fun t =>
      decide (sub.teacherId = t.id ∧ t.name = teacher_name)).map fun _ =>
        (sub.id, sub.name)
  sortBy (fun a b => decide (a.2 ≤ b.2)) rows

/-- Query `select_6`: students of the named group, alphabetical by student name. -/
def select_6 (db : DB) (group_name : String) : List (Nat × String × String) :=
  let rows := db.students.flatMap fun st =>
    (db.groups.filter fun gr =>
      decide (st.groupId = gr.id ∧ gr.name = group_name)).map fun _ =>
        (st.id, st.name, st.email)
  sortBy (fun a b => decide (a.2.1 ≤ b.2.1)) rows

/-- Query `select_7`: raw grade records of the named group in the named subject,
ordered by student id then grade timestamp. -/
def select_7 (db : DB) (group_name subject_name : String) :
    List (Nat × String × Int × Int) :=
  let rows := ((gsgsRows db).filter fun t =>
    decide (t.1.name = group_name ∧ t.2.2.2.name = subject_name)).map fun t =>
      (t.2.1.id, t.2.1.name, t.2.2.1.value, t.2.2.1.createdAt)
  sortBy (fun a b => decide (a.1 < b.1 ∨ (a.1 = b.1 ∧ a.2.2.2 ≤ b.2.2.2))) rows

/-- Grade values of `grades JOIN subjects JOIN teachers WHERE teachers.name = n`
(used by `select_8`). -/
def teacherGradeValues (db : DB) (teacher_name : String) : List Int :=
  db.grades.flatMap fun g =>
    (db.subjects.filter fun sub => decide (sub.id = g.subjectId)).flatMap fun sub =>
      (db.teachers.filter fun t =>
        decide (sub.teacherId = t.id ∧ t.name = teacher_name)).map fun _ => g.value

/-- Query `select_8`: average grade over all subjects of the named teacher
(`none` when the join is empty; the Python function returns the scalar
unchanged). -/
def select_8 (db : DB) (teacher_name : String) : Option ℚ :=
  let vs := teacherGradeValues db teacher_name
  if vs.isEmpty then none else some (round2 (avgList vs))

/-- Join rows of `subjects JOIN grades JOIN students WHERE students.name = n`,
projected to the `GROUP BY (subjects.id, subjects.name)` key
(used by `select_9`). -/
def studentSubjectKeys (db : DB) (student_name : String) : List (Nat × String) :=
  db.subjects.flatMap fun sub =>
    (db.grades.filter fun g => decide (g.subjectId = sub.id)).flatMap fun g =>
      (db.students.filter fun st =>
        decide (g.studentId = st.id ∧ st.name = student_name)).map fun _ =>
          (sub.id, sub.name)

/-- Query `select_9`: distinct subjects in which the named student has a grade,
alphabetical by subject name. -/
def select_9 (db : DB) (student_name : String) : List (Nat × String) :=
  sortBy (fun a b => decide (a.2 ≤ b.2)) (studentSubjectKeys db student_name).dedup

/-- The `GROUP BY` keys of `select_10`'s four-table join. -/
def studentTeacherSubjectKeys (db : DB) (student_name teacher_name : String) :
    List (Nat × String) :=
  db.subjects.flatMap fun sub =>
    (db.grades.filter fun g => decide (g.subjectId = sub.id)).flatMap fun g =>
      (db.students.filter fun st =>
        decide (g.studentId = st.id ∧ st.name = student_name)).flatMap fun _ =>
          (db.teachers.filter fun t =>
            decide (sub.teacherId = t.id ∧ t.name = teacher_name)).map fun _ =>
              (sub.id, sub.name)

/-- Query `select_10`: distinct subjects of the named teacher in which the named
student has a grade, alphabetical by subject name. -/
def select_10 (db : DB) (student_name teacher_name : String) : List (Nat × String) :=
  sortBy (fun a b => decide (a.2 ≤ b.2))
    (studentTeacherSubjectKeys db student_name teacher_name).dedup

/-! ### Generic facts about the query embeddings -/

theorem round2_zero : round2 0 = 0 := by simp [round2]

theorem round2_mono {a b : ℚ} (h : a ≤ b) : round2 a ≤ round2 b := by
  unfold round2
  have h1 : a * 100 ≤ b * 100 :=
    mul_le_mul_of_nonneg_right h (by norm_num)
  have h2 : (round (a * 100) : ℤ) ≤ round (b * 100) := by
    rw [round_eq, round_eq]
    exact Int.floor_mono (by linarith)
  have h3 : ((round (a * 100) : ℤ) : ℚ) ≤ ((round (b * 100) : ℤ) : ℚ) := by
    exact_mod_cast h2
  rw [div_eq_mul_inv, div_eq_mul_inv]
  exact mul_le_mul_of_nonneg_right h3 (by norm_num)

theorem pairwise_sortBy_key_le {α : Type _} (key : α → String) (l : List α) :
    (sortBy (fun a b => decide (key a ≤ key b)) l).Pairwise fun a b => key a ≤ key b := by
  have h := pairwise_sortBy (fun a b => decide (key a ≤ key b))
    (fun a b => by
      rcases le_total (key a) (key b) with h | h
      · exact Or.inl (decide_eq_true h)
      · exact Or.inr (decide_eq_true h))
    (fun a b c hab hbc =>
      decide_eq_true (le_trans (of_decide_eq_true hab) (of_decide_eq_true hbc)))
    l
  exact h.imp fun hab => of_decide_eq_true hab

theorem pairwise_sortBy_key_ge {α : Type _} (key : α → ℚ) (l : List α) :
    (sortBy (fun a b => decide (key b ≤ key a)) l).Pairwise fun a b => key b ≤ key a := by
  have h := pairwise_sortBy (fun a b => decide (key b ≤ key a))
    (fun a b => by
      rcases le_total (key b) (key a) with h | h
      · exact Or.inl (decide_eq_true h)
      · exact Or.inr (decide_eq_true h))
    (fun a b c hab hbc =>
      decide_eq_true (le_trans (of_decide_eq_true hbc) (of_decide_eq_true hab)))
    l
  exact h.imp fun hab => of_decide_eq_true hab

theorem sgRows_mem_parts {db : DB} {t : Student × Grade} (h : t ∈ sgRows db) :
    t.1 ∈ db.students ∧ t.2 ∈ db.grades ∧ t.2.studentId = t.1.id := by
  rcases List.mem_flatMap.mp h with ⟨st, hst, h2⟩
  rcases List.mem_map.mp h2 with ⟨g, hg, rfl⟩
  exact ⟨hst, (List.mem_filter.mp hg).1,
    of_decide_eq_true (List.mem_filter.mp hg).2⟩

theorem sgsRows_mem_parts {db : DB} {t : Student × Grade × Subject}
    (h : t ∈ sgsRows db) :
    t.1 ∈ db.students ∧ t.2.1 ∈ db.grades ∧ t.2.2 ∈ db.subjects := by
  rcases List.mem_flatMap.mp h with ⟨st, hst, h2⟩
  rcases List.mem_flatMap.mp h2 with ⟨g, hg, h3⟩
  rcases List.mem_map.mp h3 with ⟨sub, hsub, rfl⟩
  exact ⟨hst, (List.mem_filter.mp hg).1, (List.mem_filter.mp hsub).1⟩

theorem gsgsRows_mem_parts {db : DB} {t : Group × Student × Grade × Subject}
    (h : t ∈ gsgsRows db) :
    t.1 ∈ db.groups ∧ t.2.1 ∈ db.students ∧ t.2.2.1 ∈ db.grades ∧
      t.2.2.2 ∈ db.subjects := by
  rcases List.mem_flatMap.mp h with ⟨gr, hgr, h2⟩
  rcases List.mem_flatMap.mp h2 with ⟨st, hst, h3⟩
  rcases List.mem_flatMap.mp h3 with ⟨g, hg, h4⟩
  rcases List.mem_map.mp h4 with ⟨sub, hsub, rfl⟩
  exact ⟨hgr, (List.mem_filter.mp hst).1, (List.mem_filter.mp hg).1,
    (List.mem_filter.mp hsub).1⟩

/-- A one-of-each store whose single grade value is 0 (used as a concrete
input for several theorems below). -/
def exDB0 : DB :=
  { groups := [⟨1, "Group 1"⟩]
    teachers := [⟨1, "T. Teach", "t@example.com"⟩]
    subjects := [⟨1, "Mathematics", 1⟩]
    students := [⟨1, "S. Stud", "s@example.com", 1⟩]
    grades := [⟨1, 1, 1, 0, 0⟩] }

/-! ### Claims about the query layer -/

/-- C6: on a store with zero grades, `select_4` (OverallAverage) returns the
empty optional, not the number zero and not an error. -/
theorem select_4_empty_grade_set_returns_none (db : DB) (h : db.grades = []) :
    select_4 db = none := by
  simp [select_4, h]

/-- Witness for C6 at the empty store. -/
theorem select_4_empty_grade_set_returns_none_witness :
    select_4 emptyDB = none :=
  select_4_empty_grade_set_returns_none emptyDB rfl

theorem avgList_single_zero : avgList [0] = 0 := by simp [avgList]

theorem exDB0_grade_values : exDB0.grades.map (fun g => g.value) = [0] := rfl

theorem exDB0_teacher_values : teacherGradeValues exDB0 "T. Teach" = [0] := rfl

/-- Counterexample to C3: on a store whose grade set is non-empty with
computed average exactly 0, `select_4` and `select_8` return the present
value `some 0`, not the empty optional — the `if avg:` test in the source
only selects the log message and the scalar is returned unchanged. -/
theorem select_4_select_8_zero_average_counterexample :
    exDB0.grades ≠ [] ∧
    avgList (exDB0.grades.map fun g => g.value) = 0 ∧
    teacherGradeValues exDB0 "T. Teach" ≠ [] ∧
    avgList (teacherGradeValues exDB0 "T. Teach") = 0 ∧
    select_4 exDB0 = some 0 ∧
    select_8 exDB0 "T. Teach" = some 0 := by
  refine ⟨by decide, ?_, by decide, ?_, ?_, ?_⟩
  · rw [exDB0_grade_values]; exact avgList_single_zero
  · rw [exDB0_teacher_values]; exact avgList_single_zero
  · have h4 : select_4 exDB0 = some (round2 (avgList [0])) := rfl
    rw [h4, avgList_single_zero, round2_zero]
  · have h8 : select_8 exDB0 "T. Teach" = some (round2 (avgList [0])) := rfl
    rw [h8, avgList_single_zero, round2_zero]

/-- C3 amended: a computed average of exactly 0 over a non-empty grade set is
returned as the present value `some 0` by both `select_4` and `select_8`;
only the logging branch treats it as the empty case.  `none` is returned
exactly when the relevant grade set is empty. -/
theorem select_4_select_8_zero_average_is_present (db : DB) (tname : String) :
    (db.grades ≠ [] → avgList (db.grades.map fun g => g.value) = 0 →
      select_4 db = some 0) ∧
    (teacherGradeValues db tname ≠ [] → avgList (teacherGradeValues db tname) = 0 →
      select_8 db tname = some 0) := by
  constructor
  · intro h h0
    simp [select_4, List.isEmpty_iff, h, h0, round2_zero]
  · intro h h0
    simp [select_8, List.isEmpty_iff, h, h0, round2_zero]

/-- Witness for the amended C3 at a concrete store. -/
theorem select_4_select_8_zero_average_is_present_witness :
    (exDB0.grades ≠ [] ∧ avgList (exDB0.grades.map fun g => g.value) = 0 ∧
      select_4 exDB0 = some 0) ∧
    (teacherGradeValues exDB0 "T. Teach" ≠ [] ∧
      avgList (teacherGradeValues exDB0 "T. Teach") = 0 ∧
      select_8 exDB0 "T. Teach" = some 0) :=
  ⟨⟨by decide, by rw [exDB0_grade_values]; exact avgList_single_zero,
      (select_4_select_8_zero_average_is_present exDB0 "T. Teach").1
        (by decide) (by rw [exDB0_grade_values]; exact avgList_single_zero)⟩,
    ⟨by decide, by rw [exDB0_teacher_values]; exact avgList_single_zero,
      (select_4_select_8_zero_average_is_present exDB0 "T. Teach").2
        (by decide) (by rw [exDB0_teacher_values]; exact avgList_single_zero)⟩⟩

/-- C9: `select_9` (StudentCourses) returns each subject at most once and the
rows are sorted alphabetically by subject name, for every store and name. -/
theorem select_9_distinct_and_sorted (db : DB) (student_name : String) :
    (select_9 db student_name).Nodup ∧
    (select_9 db student_name).Pairwise (fun a b => a.2 ≤ b.2) := by
  constructor
  · exact nodup_sortBy _ (List.nodup_dedup _)
  · exact pairwise_sortBy_key_le (fun p : Nat × String => p.2) _

/-- C4: `select_1` (TopStudents) returns at most 5 rows, the rows are in
descending order of the (rounded) average grade, and every returned row
belongs to a student of the store who has at least one grade. -/
theorem select_1_top_students (db : DB) :
    (select_1 db).length ≤ 5 ∧
    (select_1 db).Pairwise (fun r1 r2 => r2.2.2.2 ≤ r1.2.2.2) ∧
    ∀ r ∈ select_1 db, ∃ st ∈ db.students, st.id = r.1 ∧
      (db.grades.filter fun g => decide (g.studentId = st.id)) ≠ [] := by
  refine ⟨?_, ?_, ?_⟩
  · simp only [select_1, List.length_map]
    exact List.length_take_le 5 _
  · have hs := pairwise_sortBy_key_ge (avgForKey (sgRows db))
      ((sgRows db).map studentKey).dedup
    have ht := hs.sublist (List.take_sublist 5 _)
    exact ht.map _ fun a b hab => round2_mono hab
  · intro r hr
    simp only [select_1, List.mem_map] at hr
    obtain ⟨k, hk, rfl⟩ := hr
    have hk1 : k ∈ sortBy _ ((sgRows db).map studentKey).dedup :=
      List.mem_of_mem_take hk
    have hk2 : k ∈ (sgRows db).map studentKey := by
      rw [← List.mem_dedup]
      exact mem_sortBy.mp hk1
    obtain ⟨t, ht, hkey⟩ := List.mem_map.mp hk2
    obtain ⟨hst, hg, hid⟩ := sgRows_mem_parts ht
    refine ⟨t.1, hst, ?_, ?_⟩
    · rw [← hkey]; rfl
    · apply List.ne_nil_of_mem (a := t.2)
      exact List.mem_filter.mpr ⟨hg, decide_eq_true hid⟩

theorem sortBy_eq_nil {r : α → α → Bool} {l : List α} (h : l = []) :
    sortBy r l = [] := by subst h; rfl

/-- C5: a name matching no row of the relevant entity's identifying field
yields an empty sequence (or `none` for the scalar queries) from every
name-keyed query; the queries are total functions, so no error is possible. -/
theorem name_keyed_queries_empty_on_unknown_name (db : DB) (n m : String) :
    ((∀ sub ∈ db.subjects, sub.name ≠ n) →
      select_2 db n = none ∧ select_3 db n = [] ∧ select_7 db m n = []) ∧
    ((∀ t ∈ db.teachers, t.name ≠ n) →
      select_5 db n = [] ∧ select_8 db n = none ∧ select_10 db m n = []) ∧
    ((∀ gr ∈ db.groups, gr.name ≠ n) →
      select_6 db n = [] ∧ select_7 db n m = []) ∧
    ((∀ st ∈ db.students, st.name ≠ n) →
      select_9 db n = [] ∧ select_10 db n m = []) := by
  refine ⟨fun hsub => ⟨?_, ?_, ?_⟩, fun ht => ⟨?_, ?_, ?_⟩,
    fun hgr => ⟨?_, ?_⟩, fun hst => ⟨?_, ?_⟩⟩
  · -- select_2 on unknown subject name
    have h2 : ((sgsRows db).filter fun t => decide (t.2.2.name = n)) = [] :=
      List.filter_eq_nil_iff.mpr fun t ht => by
        simp only [decide_eq_true_eq]
        exact hsub t.2.2 (sgsRows_mem_parts ht).2.2
    simp [select_2, h2, sortBy]
  · -- select_3 on unknown subject name
    have h3 : ((gsgsRows db).filter fun t => decide (t.2.2.2.name = n)) = [] :=
      List.filter_eq_nil_iff.mpr fun t ht => by
        simp only [decide_eq_true_eq]
        exact hsub t.2.2.2 (gsgsRows_mem_parts ht).2.2.2
    simp [select_3, h3, sortBy]
  · -- select_7 on unknown subject name
    have h7 : ((gsgsRows db).filter fun t =>
        decide (t.1.name = m ∧ t.2.2.2.name = n)) = [] :=
      List.filter_eq_nil_iff.mpr fun t ht => by
        simp only [decide_eq_true_eq, not_and]
        exact fun _ => hsub t.2.2.2 (gsgsRows_mem_parts ht).2.2.2
    simp only [select_7]
    apply sortBy_eq_nil
    rw [h7]
    rfl
  · -- select_5 on unknown teacher name
    simp only [select_5]
    apply sortBy_eq_nil
    apply List.flatMap_eq_nil_iff.mpr
    intro sub _
    have h5 : (db.teachers.filter fun t =>
        decide (sub.teacherId = t.id ∧ t.name = n)) = [] :=
      List.filter_eq_nil_iff.mpr fun t htm => by
        simp only [decide_eq_true_eq, not_and]
        exact fun _ => ht t htm
    rw [h5]; rfl
  · -- select_8 on unknown teacher name
    have hv : teacherGradeValues db n = [] := by
      apply List.flatMap_eq_nil_iff.mpr
      intro g _
      apply List.flatMap_eq_nil_iff.mpr
      intro sub _
      have h8 : (db.teachers.filter fun t =>
          decide (sub.teacherId = t.id ∧ t.name = n)) = [] :=
        List.filter_eq_nil_iff.mpr fun t htm => by
          simp only [decide_eq_true_eq, not_and]
          exact fun _ => ht t htm
      rw [h8]; rfl
    simp [select_8, hv]
  · -- select_10 on unknown teacher name
    simp only [select_10]
    apply sortBy_eq_nil
    have hk : studentTeacherSubjectKeys db m n = [] := by
      apply List.flatMap_eq_nil_iff.mpr
      intro sub _
      apply List.flatMap_eq_nil_iff.mpr
      intro g _
      apply List.flatMap_eq_nil_iff.mpr
      intro st _
      have h10 : (db.teachers.filter fun t =>
          decide (sub.teacherId = t.id ∧ t.name = n)) = [] :=
        List.filter_eq_nil_iff.mpr fun t htm => by
          simp only [decide_eq_true_eq, not_and]
          exact fun _ => ht t htm
      rw [h10]; rfl
    rw [hk]; rfl
  · -- select_6 on unknown group name
    simp only [select_6]
    apply sortBy_eq_nil
    apply List.flatMap_eq_nil_iff.mpr
    intro st _
    have h6 : (db.groups.filter fun gr =>
        decide (st.groupId = gr.id ∧ gr.name = n)) = [] :=
      List.filter_eq_nil_iff.mpr fun gr hgm => by
        simp only [decide_eq_true_eq, not_and]
        exact fun _ => hgr gr hgm
    rw [h6]; rfl
  · -- select_7 on unknown group name
    have h7 : ((gsgsRows db).filter fun t =>
        decide (t.1.name = n ∧ t.2.2.2.name = m)) = [] :=
      List.filter_eq_nil_iff.mpr fun t htm => by
        simp only [decide_eq_true_eq, not_and]
        exact fun hn _ => hgr t.1 (gsgsRows_mem_parts htm).1 hn
    simp only [select_7]
    apply sortBy_eq_nil
    rw [h7]
    rfl
  · -- select_9 on unknown student name
    simp only [select_9]
    apply sortBy_eq_nil
    have hk : studentSubjectKeys db n = [] := by
      apply List.flatMap_eq_nil_iff.mpr
      intro sub _
      apply List.flatMap_eq_nil_iff.mpr
      intro g _
      have h9 : (db.students.filter fun st =>
          decide (g.studentId = st.id ∧ st.name = n)) = [] :=
        List.filter_eq_nil_iff.mpr fun st hsm => by
          simp only [decide_eq_true_eq, not_and]
          exact fun _ => hst st hsm
      rw [h9]; rfl
    rw [hk]; rfl
  · -- select_10 on unknown student name
    simp only [select_10]
    apply sortBy_eq_nil
    have hk : studentTeacherSubjectKeys db n m = [] := by
      apply List.flatMap_eq_nil_iff.mpr
      intro sub _
      apply List.flatMap_eq_nil_iff.mpr
      intro g _
      have h10 : (db.students.filter fun st =>
          decide (g.studentId = st.id ∧ st.name = n)) = [] :=
        List.filter_eq_nil_iff.mpr fun st hsm => by
          simp only [decide_eq_true_eq, not_and]
          exact fun _ => hst st hsm
      rw [h10]; rfl
    rw [hk]; rfl

/-- Witness for C4: on the example store the single returned row belongs to
a student who has a grade. -/
theorem select_1_top_students_witness :
    ∃ st ∈ exDB0.students,
      st.id = (1, "S. Stud", "s@example.com",
        round2 (avgForKey (sgRows exDB0) (1, "S. Stud", "s@example.com"))).1 ∧
      (exDB0.grades.filter fun g => decide (g.studentId = st.id)) ≠ [] :=
  (select_1_top_students exDB0).2.2 _
    (List.mem_singleton_self _ : _ ∈ select_1 exDB0)

/-- Witness for C5 on a populated store and a name matching nothing. -/
theorem name_keyed_queries_empty_on_unknown_name_witness :
    (select_2 exDB0 "Ghost" = none ∧ select_3 exDB0 "Ghost" = [] ∧
      select_7 exDB0 "Club" "Ghost" = []) ∧
    (select_5 exDB0 "Ghost" = [] ∧ select_8 exDB0 "Ghost" = none ∧
      select_10 exDB0 "Club" "Ghost" = []) ∧
    (select_6 exDB0 "Ghost" = [] ∧ select_7 exDB0 "Ghost" "Club" = []) ∧
    (select_9 exDB0 "Ghost" = [] ∧ select_10 exDB0 "Ghost" "Club" = []) := by
  have h := name_keyed_queries_empty_on_unknown_name exDB0 "Ghost" "Club"
  exact ⟨h.1 (by decide), h.2.1 (by decide), h.2.2.1 (by decide),
    h.2.2.2 (by decide)⟩

/-! ### Schema-level insertion (`models.py`)

The storage layer enforces the check constraint
`value >= 0 AND value <= 100` of the `grades` table and the foreign keys
`student_id` and `subject_id` on every insert. -/

inductive DBError where
  | constraintViolation
  | integrityError
deriving Repr, DecidableEq

/-- Insert one grade row, enforcing the `check_grade_value` constraint and
the two foreign keys of the `grades` table (`models.py`, class `Grades`).
A failed insert produces an error and no new store. -/
def insertGrade (db : DB) (g : Grade) : Except DBError DB :=
  if ¬ (0 ≤ g.value ∧ g.value ≤ 100) then .error .constraintViolation
  else if ¬ (db.students.any fun st => decide (st.id = g.studentId)) then
    .error .integrityError
  else if ¬ (db.subjects.any fun sub => decide (sub.id = g.subjectId)) then
    .error .integrityError
  else .ok { db with grades := db.grades ++ [g] }

/-! ### The data generator (`seed.py`) -/

inductive SeedError where
  | configurationError  -- `ValueError` from bad parameters (`randint`, `sample`)
  | indexError          -- `random.choice` on an empty sequence
  | injectedFailure     -- an externally injected step failure
deriving Repr, DecidableEq

/-- Model of `random.randint(lo, hi)`: uniform value in `[lo, hi]`; raises on an
empty range.  The draw is taken from the abstract random value `r`. -/
def randint (r lo hi : Nat) : Except SeedError Nat :=
  if lo > hi then .error .configurationError
  else .ok (lo + r % (hi - lo + 1))

/-- Model of `random.choice(l)`: an element of `l`; raises on an empty sequence. -/
def choice (r : Nat) : List α → Except SeedError α
  | [] => .error .indexError
  | x :: xs => .ok ((x :: xs).getD (r % (x :: xs).length) x)

/-- Selection loop of `random.sample`: pick `k` elements without
replacement, each uniformly among the remaining pool. -/
def sampleAux (rnd : Nat → Nat) (r0 : Nat) : Nat → List String → List String
  | 0, _ => []
  | _ + 1, [] => []
  | k + 1, x :: xs =>
    let i := rnd r0 % (x :: xs).length
    (x :: xs).getD i x :: sampleAux rnd (r0 + 1) k ((x :: xs).eraseIdx i)

/-- Model of `random.sample(pool, k)`: `k` distinct elements of `pool`; raises
`ValueError` when `k` exceeds the population size. -/
def sample (rnd : Nat → Nat) (r0 : Nat) (pool : List String) (k : Nat) :
    Except SeedError (List String) :=
  if k > pool.length then .error .configurationError
  else .ok (sampleAux rnd r0 k pool)

/-- The fixed pool of the seeder (`DatabaseSeeder.ACADEMIC_SUBJECTS`). -/
def ACADEMIC_SUBJECTS : List String :=
  ["Mathematics", "Physics", "Chemistry", "Biology", "History",
   "Geography", "Literature", "Computer Science", "Philosophy", "Economics"]

/-- Configuration of `DatabaseSeeder.__init__`. -/
structure SeederConfig where
  groups_count : Nat
  teachers_range : Nat × Nat
  subjects_range : Nat × Nat
  students_range : Nat × Nat
  grades_range : Nat × Nat

def defaultConfig : SeederConfig :=
  { groups_count := 3, teachers_range := (3, 5), subjects_range := (5, 8)
    students_range := (30, 50), grades_range := (5, 20) }

/-- The seeder's external sources: the random stream consumed by the
`random` module (one abstract draw per call), the `Faker.name()` stream and
the `Faker.unique.email()` stream (both indexed by call number). -/
structure RT where
  rnd : Nat → Nat
  names : Nat → String
  emails : Nat → String

/-- Method `_generate_groups`: `groups_count` groups named `"Group 1"…"Group N"`. -/
def generate_groups (count : Nat) : List Group :=
  (List.range count).map fun idx => ⟨idx + 1, s!"Group {idx + 1}"⟩

/-- Method `_generate_teachers`: a `randint`-drawn count of teachers, each with a
fresh name and a fresh unique email. -/
def generate_teachers (rt : RT) (r0 nOff eOff : Nat) (rng : Nat × Nat) :
    Except SeedError (List Teacher) := do
  let count ← randint (rt.rnd r0) rng.1 rng.2
  .ok ((List.range count).map fun i =>
    ⟨i + 1, rt.names (nOff + i), rt.emails (eOff + i)⟩)

/-- Method `_generate_subjects`: a `randint`-drawn count of subject names sampled
without replacement from `ACADEMIC_SUBJECTS`, each assigned to a
`random.choice` of the generated teachers. -/
def generate_subjects (rt : RT) (r0 : Nat) (teachers : List Teacher)
    (rng : Nat × Nat) : Except SeedError (List Subject) := do
  let count ← randint (rt.rnd r0) rng.1 rng.2
  let selected ← sample rt.rnd (r0 + 1) ACADEMIC_SUBJECTS count
  match teachers with
  | [] => if selected.isEmpty then .ok [] else .error .indexError
  | t0 :: ts =>
    .ok (selected.enum.map fun p =>
      ⟨p.1 + 1, p.2,
        ((t0 :: ts).getD (rt.rnd (r0 + 1 + count + p.1) % (t0 :: ts).length) t0).id⟩)

/-- Method `_generate_students`: a `randint`-drawn count of students, each with a
fresh name, a fresh unique email, and a `random.choice` group. -/
def generate_students (rt : RT) (r0 nOff eOff : Nat) (groups : List Group)
    (rng : Nat × Nat) : Except SeedError (List Student) := do
  let count ← randint (rt.rnd r0) rng.1 rng.2
  match groups with
  | [] => if count = 0 then .ok [] else .error .indexError
  | g0 :: gs =>
    .ok ((List.range count).map fun j =>
      ⟨j + 1, rt.names (nOff + j), rt.emails (eOff + j),
        ((g0 :: gs).getD (rt.rnd (r0 + 1 + j) % (g0 :: gs).length) g0).id⟩)

/-- Inner loop of `_generate_grades` for one student: `k` grades, each with
a `randint(1,100)` value, a `randint(0,365)` day offset and a
`random.choice` subject. -/
def generate_grades_for (rt : RT) (r0 : Nat) (subjects : List Subject)
    (sid : Nat) (now : Int) : Nat → Except SeedError (List Grade)
  | 0 => .ok []
  | k + 1 => do
    let value ← randint (rt.rnd r0) 1 100
    let days ← randint (rt.rnd (r0 + 1)) 0 365
    let sub ← choice (rt.rnd (r0 + 2)) subjects
    let rest ← generate_grades_for rt (r0 + 3) subjects sid now k
    .ok (⟨0, sid, sub.id, (value : Int), now - (days : Int)⟩ :: rest)

/-- Method `_generate_grades`: for every student in order, a `randint`-drawn
number of grades. -/
def generate_grades (rt : RT) (r0 : Nat) (subjects : List Subject) (now : Int)
    (rng : Nat × Nat) : List Student → Except SeedError (List Grade)
  | [] => .ok []
  | st :: rest => do
    let gcount ← randint (rt.rnd r0) rng.1 rng.2
    let gs ← generate_grades_for rt (r0 + 1) subjects st.id now gcount
    let more ← generate_grades rt (r0 + 1 + 3 * gcount) subjects now rng rest
    .ok (gs ++ more)

/-! ### The session and `populate` -/

/-- A SQLAlchemy session over the store: the committed state and the
pending (uncommitted) view.  `flush` only materialises pending rows, so it
does not appear: `add_all` already extends the pending view. -/
structure SessionState where
  committed : DB
  pending : DB
deriving Repr, DecidableEq

def commit (s : SessionState) : SessionState := ⟨s.pending, s.pending⟩

def rollback (s : SessionState) : SessionState := ⟨s.committed, s.committed⟩

/-- Method `_purge_existing_data`: delete every row of every table, then
`session.commit()` — the purge is committed on its own. -/
def purge_existing_data (s : SessionState) : SessionState :=
  commit { s with pending := emptyDB }

def addGroups (s : SessionState) (l : List Group) : SessionState :=
  { s with pending := { s.pending with groups := s.pending.groups ++ l } }

def addTeachers (s : SessionState) (l : List Teacher) : SessionState :=
  { s with pending := { s.pending with teachers := s.pending.teachers ++ l } }

def addSubjects (s : SessionState) (l : List Subject) : SessionState :=
  { s with pending := { s.pending with subjects := s.pending.subjects ++ l } }

def addStudents (s : SessionState) (l : List Student) : SessionState :=
  { s with pending := { s.pending with students := s.pending.students ++ l } }

def addGrades (s : SessionState) (l : List Grade) : SessionState :=
  { s with pending := { s.pending with grades := s.pending.grades ++ l } }

/-- The generation steps of `populate` that follow the purge, in order. -/
inductive Step where
  | genGroups | genTeachers | genSubjects | genStudents | genGrades | finalCommit
deriving Repr, DecidableEq

/-- Optional injected failure, modelling a step raising an exception. -/
def failCheck (failAt : Option Step) (st : Step) : Except SeedError Unit :=
  if failAt = some st then .error .injectedFailure else .ok ()

/-- The post-purge body of `populate`: generate groups, teachers, subjects,
students and grades in order (each `add_all`-ed into the pending view),
then commit.  An error carries the session state at the raise site, since
`populate`'s exception handler rolls back that session. -/
def runSteps (rt : RT) (cfg : SeederConfig) (now : Int) (failAt : Option Step)
    (s : SessionState) : Except (SeedError × SessionState) SessionState :=
  match failCheck failAt .genGroups with
  | .error e => .error (e, s)
  | .ok _ =>
  let groups := generate_groups cfg.groups_count
  let s1 := addGroups s groups
  match failCheck failAt .genTeachers with
  | .error e => .error (e, s1)
  | .ok _ =>
  match generate_teachers rt 0 0 0 cfg.teachers_range with
  | .error e => .error (e, s1)
  | .ok teachers =>
  let s2 := addTeachers s1 teachers
  match failCheck failAt .genSubjects with
  | .error e => .error (e, s2)
  | .ok _ =>
  match generate_subjects rt 1 teachers cfg.subjects_range with
  | .error e => .error (e, s2)
  | .ok subjects =>
  let s3 := addSubjects s2 subjects
  match failCheck failAt .genStudents with
  | .error e => .error (e, s3)
  | .ok _ =>
  match generate_students rt (2 + 2 * subjects.length) teachers.length
      teachers.length groups cfg.students_range with
  | .error e => .error (e, s3)
  | .ok students =>
  let s4 := addStudents s3 students
  match failCheck failAt .genGrades with
  | .error e => .error (e, s4)
  | .ok _ =>
  match generate_grades rt (3 + 2 * subjects.length + students.length) subjects
      now cfg.grades_range students with
  | .error e => .error (e, s4)
  | .ok grades =>
  let s5 := addGrades s4 grades
  match failCheck failAt .finalCommit with
  | .error e => .error (e, s5)
  | .ok _ => .ok (commit s5)

/-- Method `DatabaseSeeder.populate`: purge (committed on its own), run the
generation steps, commit; on any exception, roll back the session and
propagate the error. -/
def populate (rt : RT) (cfg : SeederConfig) (now : Int) (failAt : Option Step)
    (s0 : SessionState) : SessionState × Option SeedError :=
  let s1 := purge_existing_data s0
  match runSteps rt cfg now failAt s1 with
  | .ok s => (s, none)
  | .error (e, sf) => (rollback sf, some e)

/-! ### Claims about the schema and the generator -/

/-- C7: a grade whose value lies outside `[0, 100]` is rejected with a
constraint violation (and, the insert failing, no new store is produced),
and a successful insert into a store whose grades all satisfy
`0 <= value <= 100` preserves that invariant — so every stored grade
satisfies it. -/
theorem insertGrade_value_range (db : DB) (g : Grade)
    (hdb : ∀ g' ∈ db.grades, 0 ≤ g'.value ∧ g'.value ≤ 100) :
    (¬(0 ≤ g.value ∧ g.value ≤ 100) →
      insertGrade db g = .error .constraintViolation) ∧
    (∀ db', insertGrade db g = .ok db' →
      ∀ g' ∈ db'.grades, 0 ≤ g'.value ∧ g'.value ≤ 100) := by
  constructor
  · intro h
    simp [insertGrade, h]
  · intro db' h g' hg'
    rw [insertGrade] at h
    split at h
    · exact absurd h (by simp)
    · split at h
      · exact absurd h (by simp)
      · split at h
        · exact absurd h (by simp)
        · rename_i hv _ _
          have hdb' : db' = { db with grades := db.grades ++ [g] } :=
            (Except.ok.injEq _ _).mp h.symm
          subst hdb'
          rcases List.mem_append.mp hg' with hmem | hmem
          · exact hdb g' hmem
          · rw [List.mem_singleton] at hmem
            subst hmem
            exact not_not.mp hv

/-- Witness for C7: the populated example store satisfies the invariant, an
out-of-range insert is rejected, and an in-range insert preserves it. -/
theorem insertGrade_value_range_witness :
    (∀ g' ∈ exDB0.grades, 0 ≤ g'.value ∧ g'.value ≤ 100) ∧
    insertGrade exDB0 ⟨2, 1, 1, 101, 0⟩ = .error .constraintViolation ∧
    ∀ g' ∈ ({ exDB0 with
        grades := exDB0.grades ++ [(⟨2, 1, 1, 50, 0⟩ : Grade)] } : DB).grades,
      0 ≤ g'.value ∧ g'.value ≤ 100 :=
  ⟨by decide,
    (insertGrade_value_range exDB0 ⟨2, 1, 1, 101, 0⟩ (by decide)).1 (by decide),
    (insertGrade_value_range exDB0 ⟨2, 1, 1, 50, 0⟩ (by decide)).2
      ({ exDB0 with grades := exDB0.grades ++ [(⟨2, 1, 1, 50, 0⟩ : Grade)] } : DB)
      rfl⟩

/-- Concrete run-time sources for counterexamples and witnesses. -/
def rt0 : RT := ⟨fun _ => 0, fun _ => "A. Name", fun _ => "a@example.com"⟩

/-- A pre-run store holding one group, to observe what a failed run leaves. -/
def exDB1 : DB := ⟨[⟨1, "Old Group"⟩], [], [], [], []⟩

/-- Counterexample to C1: starting from a non-empty store, a run whose first
post-purge step fails leaves the store empty — the purge was committed by
`_purge_existing_data` itself and is not reverted — so the state after the
failed run differs from the state before the run. -/
theorem populate_not_all_or_nothing :
    (populate rt0 defaultConfig 0 (some .genGroups) ⟨exDB1, exDB1⟩).2.isSome ∧
    (populate rt0 defaultConfig 0 (some .genGroups) ⟨exDB1, exDB1⟩).1 ≠
      ⟨exDB1, exDB1⟩ := by
  decide

theorem runSteps_error_committed {rt : RT} {cfg : SeederConfig} {now : Int}
    {failAt : Option Step} {s : SessionState} {e : SeedError} {sf : SessionState}
    (h : runSteps rt cfg now failAt s = .error (e, sf)) :
    sf.committed = s.committed := by
  unfold runSteps at h
  repeat'
    first
    | split at h
    | (simp only [] at h)
  all_goals simp at h
  all_goals obtain ⟨h1, h2⟩ := h
  all_goals subst h2
  all_goals simp [addGroups, addTeachers, addSubjects, addStudents, addGrades]

/-- C1 amended: the purge is committed separately by
`_purge_existing_data`; when any later step fails, the exception handler
rolls the session back to the purged state, so the state after a failed
run is the empty store (all generation since the purge reverted), not the
state before the run began. -/
theorem populate_failed_run_leaves_purged_state (rt : RT) (cfg : SeederConfig)
    (now : Int) (failAt : Option Step) (db : DB) (e : SeedError)
    (h : (populate rt cfg now failAt ⟨db, db⟩).2 = some e) :
    (populate rt cfg now failAt ⟨db, db⟩).1 = ⟨emptyDB, emptyDB⟩ := by
  unfold populate at h ⊢
  simp only [] at h ⊢
  cases hr : runSteps rt cfg now failAt (purge_existing_data ⟨db, db⟩) with
  | ok s =>
    rw [hr] at h
    simp at h
  | error es =>
    obtain ⟨e', sf⟩ := es
    have hc := runSteps_error_committed hr
    simp [rollback, hc, purge_existing_data, commit, emptyDB]

/-- Witness for the amended C1: a failing run from a non-empty store ends in
the purged empty state. -/
theorem populate_failed_run_leaves_purged_state_witness :
    (populate rt0 defaultConfig 0 (some .genTeachers) ⟨exDB1, exDB1⟩).2 =
      some .injectedFailure ∧
    (populate rt0 defaultConfig 0 (some .genTeachers) ⟨exDB1, exDB1⟩).1 =
      ⟨emptyDB, emptyDB⟩ :=
  ⟨by decide,
    populate_failed_run_leaves_purged_state rt0 defaultConfig 0
      (some .genTeachers) exDB1 .injectedFailure (by decide)⟩

/-! ### Evaluation lemmas for the generator primitives -/

theorem exbind_ok (a : α) (f : α → Except ε β) : (Except.ok a >>= f) = f a := rfl

theorem exbind_err (er : ε) (f : α → Except ε β) :
    ((Except.error er : Except ε α) >>= f) = Except.error er := rfl

theorem randint_ok (r lo hi : Nat) (h : lo ≤ hi) :
    randint r lo hi = .ok (lo + r % (hi - lo + 1)) := by
  unfold randint
  rw [if_neg (by omega)]

theorem randint_err (r lo hi : Nat) (h : hi < lo) :
    randint r lo hi = .error .configurationError := by
  unfold randint
  rw [if_pos h]

theorem randint_fixed (r lo : Nat) : randint r lo lo = .ok lo := by
  rw [randint_ok r lo lo le_rfl]
  simp [Nat.mod_one]

theorem sample_err (rnd : Nat → Nat) (r0 : Nat) (pool : List String) (k : Nat)
    (h : pool.length < k) : sample rnd r0 pool k = .error .configurationError := by
  unfold sample
  rw [if_pos h]

theorem sample_ok (rnd : Nat → Nat) (r0 : Nat) (pool : List String) (k : Nat)
    (h : k ≤ pool.length) : sample rnd r0 pool k = .ok (sampleAux rnd r0 k pool) := by
  unfold sample
  rw [if_neg (by omega)]

theorem sampleAux_length (rnd : Nat → Nat) :
    ∀ (k r0 : Nat) (pool : List String), k ≤ pool.length →
      (sampleAux rnd r0 k pool).length = k := by
  intro k
  induction k with
  | zero => intro r0 pool _; rfl
  | succ k ih =>
    intro r0 pool h
    match pool with
    | [] => simp at h
    | x :: xs =>
      have hi : rnd r0 % (xs.length + 1) < xs.length + 1 :=
        Nat.mod_lt _ (Nat.succ_pos _)
      have hlen : ((x :: xs).eraseIdx (rnd r0 % (xs.length + 1))).length = xs.length := by
        rw [List.length_eraseIdx]
        simp only [List.length_cons]
        rw [if_pos hi]
        simp
      have h' : k ≤ xs.length := by
        simp only [List.length_cons] at h
        omega
      simp only [sampleAux, List.length_cons]
      rw [ih (r0 + 1) _ (by rw [hlen]; exact h')]

theorem generate_teachers_err {rt : RT} {r0 nOff eOff : Nat} {rng : Nat × Nat}
    (h : rng.2 < rng.1) :
    generate_teachers rt r0 nOff eOff rng = .error .configurationError := by
  unfold generate_teachers
  rw [randint_err _ _ _ h]
  rfl

theorem generate_teachers_ok {rt : RT} {r0 nOff eOff : Nat} {rng : Nat × Nat}
    (h : rng.1 ≤ rng.2) :
    generate_teachers rt r0 nOff eOff rng =
      .ok ((List.range (rng.1 + rt.rnd r0 % (rng.2 - rng.1 + 1))).map fun i =>
        ⟨i + 1, rt.names (nOff + i), rt.emails (eOff + i)⟩) := by
  unfold generate_teachers
  rw [randint_ok _ _ _ h]
  rfl

theorem generate_subjects_err_range {rt : RT} {r0 : Nat} {teachers : List Teacher}
    {rng : Nat × Nat} (h : rng.2 < rng.1) :
    generate_subjects rt r0 teachers rng = .error .configurationError := by
  unfold generate_subjects
  rw [randint_err _ _ _ h]
  rfl

theorem generate_subjects_err_pool {rt : RT} {r0 : Nat} {teachers : List Teacher}
    {rng : Nat × Nat} (hle : rng.1 ≤ rng.2) (h10 : 10 < rng.1) :
    generate_subjects rt r0 teachers rng = .error .configurationError := by
  unfold generate_subjects
  rw [randint_ok _ _ _ hle]
  simp only [exbind_ok]
  rw [sample_err _ _ _ _ (by simp [ACADEMIC_SUBJECTS]; omega)]
  rfl

theorem failCheck_none (st : Step) : failCheck none st = .ok () := rfl

theorem generate_subjects_err_sampled {rt : RT} {r0 : Nat}
    {teachers : List Teacher} {rng : Nat × Nat} (hle : rng.1 ≤ rng.2)
    (hcount : 10 < rng.1 + rt.rnd r0 % (rng.2 - rng.1 + 1)) :
    generate_subjects rt r0 teachers rng = .error .configurationError := by
  unfold generate_subjects
  rw [randint_ok _ _ _ hle]
  simp only [exbind_ok]
  rw [sample_err _ _ _ _ (by simp [ACADEMIC_SUBJECTS]; omega)]
  rfl

theorem generate_students_err_range {rt : RT} {r0 nOff eOff : Nat}
    {groups : List Group} {rng : Nat × Nat} (h : rng.2 < rng.1) :
    generate_students rt r0 nOff eOff groups rng = .error .configurationError := by
  unfold generate_students
  rw [randint_err _ _ _ h]
  rfl

theorem generate_grades_err_range {rt : RT} {r0 : Nat} {subjects : List Subject}
    {now : Int} {rng : Nat × Nat} {st : Student} {rest : List Student}
    (h : rng.2 < rng.1) :
    generate_grades rt r0 subjects now rng (st :: rest) =
      .error .configurationError := by
  unfold generate_grades
  rw [randint_err _ _ _ h]
  rfl

theorem generate_subjects_ok_any (rt : RT) (r0 : Nat) {teachers : List Teacher}
    {rng : Nat × Nat} (hle : rng.1 ≤ rng.2) (h10 : rng.2 ≤ 10)
    (hne : teachers ≠ []) :
    ∃ sl, generate_subjects rt r0 teachers rng = .ok sl := by
  obtain ⟨t0, ts, rfl⟩ := List.exists_cons_of_ne_nil hne
  have hm : rt.rnd r0 % (rng.2 - rng.1 + 1) < rng.2 - rng.1 + 1 :=
    Nat.mod_lt _ (by omega)
  unfold generate_subjects
  rw [randint_ok _ _ _ hle]
  simp only [exbind_ok]
  rw [sample_ok _ _ _ _ (by simp [ACADEMIC_SUBJECTS]; omega)]
  exact ⟨_, rfl⟩

theorem generate_students_ok_any (rt : RT) (r0 nOff eOff : Nat)
    {groups : List Group} {rng : Nat × Nat} (hle : rng.1 ≤ rng.2)
    (hg : groups ≠ []) :
    ∃ stl, generate_students rt r0 nOff eOff groups rng = .ok stl ∧
      stl.length = rng.1 + rt.rnd r0 % (rng.2 - rng.1 + 1) := by
  obtain ⟨g0, gs, rfl⟩ := List.exists_cons_of_ne_nil hg
  unfold generate_students
  rw [randint_ok _ _ _ hle]
  simp only [exbind_ok]
  exact ⟨_, rfl, by simp⟩

/-- Counterexample to C2: a `grades_range` whose minimum exceeds its maximum
is never consulted when the run generates zero students — the per-student
`randint` of `_generate_grades` sits inside the student loop — so this
seeding run succeeds without raising anything. -/
theorem seeding_bad_grades_range_zero_students :
    ({ groups_count := 3, teachers_range := (3, 3), subjects_range := (5, 5),
       students_range := (0, 0),
       grades_range := (5, 3) } : SeederConfig).grades_range.2 <
      ({ groups_count := 3, teachers_range := (3, 3), subjects_range := (5, 5),
         students_range := (0, 0),
         grades_range := (5, 3) } : SeederConfig).grades_range.1 ∧
    (populate rt0
      { groups_count := 3, teachers_range := (3, 3), subjects_range := (5, 5),
        students_range := (0, 0), grades_range := (5, 3) }
      0 none ⟨emptyDB, emptyDB⟩).2 = none := by
  exact ⟨by decide, rfl⟩

/-- C2 amended: the run fails with the configuration-error kind (the
`ValueError` of `random.sample`/`random.randint`) exactly when the bad
parameter is consulted: a requested subject count beyond the 10-name pool
(once the teachers step succeeds), `teachers_range` min > max
unconditionally, `subjects_range` min > max once the teachers step
succeeds, `students_range` min > max once the subjects step succeeds, and
`grades_range` min > max once at least one student is generated; with zero
students a bad `grades_range` is never consulted. -/
theorem seeding_invalid_config_raises (rt : RT) (cfg : SeederConfig) (now : Int)
    (db : DB) (r lo hi r0 k : Nat) (rnd : Nat → Nat) :
    (hi < lo → randint r lo hi = .error .configurationError) ∧
    (10 < k → sample rnd r0 ACADEMIC_SUBJECTS k = .error .configurationError) ∧
    (cfg.teachers_range.2 < cfg.teachers_range.1 →
      (populate rt cfg now none ⟨db, db⟩).2 = some .configurationError) ∧
    (cfg.teachers_range.1 ≤ cfg.teachers_range.2 →
      cfg.subjects_range.2 < cfg.subjects_range.1 →
      (populate rt cfg now none ⟨db, db⟩).2 = some .configurationError) ∧
    (cfg.teachers_range.1 ≤ cfg.teachers_range.2 →
      cfg.subjects_range.1 ≤ cfg.subjects_range.2 → 10 < cfg.subjects_range.1 →
      (populate rt cfg now none ⟨db, db⟩).2 = some .configurationError) ∧
    (cfg.teachers_range.1 ≤ cfg.teachers_range.2 →
      cfg.subjects_range.1 ≤ cfg.subjects_range.2 →
      10 < cfg.subjects_range.1 +
        rt.rnd 1 % (cfg.subjects_range.2 - cfg.subjects_range.1 + 1) →
      (populate rt cfg now none ⟨db, db⟩).2 = some .configurationError) ∧
    (1 ≤ cfg.teachers_range.1 → cfg.teachers_range.1 ≤ cfg.teachers_range.2 →
      cfg.subjects_range.1 ≤ cfg.subjects_range.2 → cfg.subjects_range.2 ≤ 10 →
      cfg.students_range.2 < cfg.students_range.1 →
      (populate rt cfg now none ⟨db, db⟩).2 = some .configurationError) ∧
    (1 ≤ cfg.teachers_range.1 → cfg.teachers_range.1 ≤ cfg.teachers_range.2 →
      cfg.subjects_range.1 ≤ cfg.subjects_range.2 → cfg.subjects_range.2 ≤ 10 →
      cfg.students_range.1 ≤ cfg.students_range.2 → 1 ≤ cfg.students_range.1 →
      1 ≤ cfg.groups_count → cfg.grades_range.2 < cfg.grades_range.1 →
      (populate rt cfg now none ⟨db, db⟩).2 = some .configurationError) := by
  refine ⟨fun h => randint_err _ _ _ h,
    fun h => sample_err _ _ _ _ (by simp [ACADEMIC_SUBJECTS]; omega),
    ?_, ?_, ?_, ?_, ?_, ?_⟩
  · intro hc
    unfold populate
    simp only []
    unfold runSteps
    simp only [failCheck_none, generate_teachers_err hc]
  · intro h1 h2
    unfold populate
    simp only []
    unfold runSteps
    simp only [failCheck_none, generate_teachers_ok h1, generate_subjects_err_range h2]
  · intro h1 h2 h3
    unfold populate
    simp only []
    unfold runSteps
    simp only [failCheck_none, generate_teachers_ok h1,
      generate_subjects_err_pool h2 h3]
  · intro h1 h2 h3
    unfold populate
    simp only []
    unfold runSteps
    simp only [failCheck_none, generate_teachers_ok h1,
      generate_subjects_err_sampled h2 h3]
  · intro h0 h1 h2 h3 h4
    unfold populate
    simp only []
    unfold runSteps
    simp only [failCheck_none, generate_teachers_ok h1]
    have hne : ((List.range (cfg.teachers_range.1 +
        rt.rnd 0 % (cfg.teachers_range.2 - cfg.teachers_range.1 + 1))).map fun i =>
        (⟨i + 1, rt.names (0 + i), rt.emails (0 + i)⟩ : Teacher)) ≠ [] := by
      intro hnil
      have hlen := congrArg List.length hnil
      simp only [List.length_map, List.length_range, List.length_nil] at hlen
      omega
    obtain ⟨sl, hsl⟩ := generate_subjects_ok_any rt 1 h2 h3 hne
    simp only [hsl, generate_students_err_range h4]
  · intro h0 h1 h2 h3 h4 h5 h6 h7
    unfold populate
    simp only []
    unfold runSteps
    simp only [failCheck_none, generate_teachers_ok h1]
    set TT : List Teacher := (List.range (cfg.teachers_range.1 +
      rt.rnd 0 % (cfg.teachers_range.2 - cfg.teachers_range.1 + 1))).map
      (fun i => ⟨i + 1, rt.names (0 + i), rt.emails (0 + i)⟩) with hTT
    have hne : TT ≠ [] := by
      intro hnil
      rw [hTT] at hnil
      have hlen := congrArg List.length hnil
      simp only [List.length_map, List.length_range, List.length_nil] at hlen
      omega
    obtain ⟨sl, hsl⟩ := generate_subjects_ok_any rt 1 h2 h3 hne
    simp only [hsl]
    have hgne : generate_groups cfg.groups_count ≠ [] := by
      intro hnil
      have hlen := congrArg List.length hnil
      simp only [generate_groups, List.length_map, List.length_range,
        List.length_nil] at hlen
      omega
    obtain ⟨stl, hstl, hstlen⟩ := generate_students_ok_any rt
      (2 + 2 * sl.length) TT.length TT.length h4 hgne
    simp only [hstl]
    have hstne : stl ≠ [] := by
      intro hnil
      rw [hnil] at hstlen
      simp only [List.length_nil] at hstlen
      omega
    obtain ⟨st0, strest, hstcons⟩ := List.exists_cons_of_ne_nil hstne
    simp only [hstcons, generate_grades_err_range h7]

/-- Witness for the amended C2 at concrete bad configurations. -/
theorem seeding_invalid_config_raises_witness :
    randint 0 5 3 = .error .configurationError ∧
    sample (fun _ => 0) 0 ACADEMIC_SUBJECTS 11 = .error .configurationError ∧
    (populate rt0 { defaultConfig with teachers_range := (5, 3) } 0 none
      ⟨emptyDB, emptyDB⟩).2 = some .configurationError ∧
    (populate rt0 { defaultConfig with subjects_range := (9, 8) } 0 none
      ⟨emptyDB, emptyDB⟩).2 = some .configurationError ∧
    (populate rt0 { defaultConfig with subjects_range := (11, 11) } 0 none
      ⟨emptyDB, emptyDB⟩).2 = some .configurationError ∧
    (populate rt0 { defaultConfig with subjects_range := (11, 12) } 0 none
      ⟨emptyDB, emptyDB⟩).2 = some .configurationError ∧
    (populate rt0 { defaultConfig with
                    teachers_range := (3, 3), subjects_range := (5, 5),
                    students_range := (7, 2) } 0 none
      ⟨emptyDB, emptyDB⟩).2 = some .configurationError ∧
    (populate rt0 { defaultConfig with
                    teachers_range := (3, 3), subjects_range := (5, 5),
                    students_range := (1, 1), grades_range := (5, 3) } 0 none
      ⟨emptyDB, emptyDB⟩).2 = some .configurationError := by
  refine ⟨?_, ?_, ?_, ?_, ?_, ?_, ?_, ?_⟩
  · exact (seeding_invalid_config_raises rt0 defaultConfig 0 emptyDB 0 5 3 0 11
      (fun _ => 0)).1 (by omega)
  · exact (seeding_invalid_config_raises rt0 defaultConfig 0 emptyDB 0 5 3 0 11
      (fun _ => 0)).2.1 (by omega)
  · exact (seeding_invalid_config_raises rt0
      { defaultConfig with teachers_range := (5, 3) } 0 emptyDB 0 5 3 0 11
      (fun _ => 0)).2.2.1 (by decide)
  · exact (seeding_invalid_config_raises rt0
      { defaultConfig with subjects_range := (9, 8) } 0 emptyDB 0 5 3 0 11
      (fun _ => 0)).2.2.2.1 (by decide) (by decide)
  · exact (seeding_invalid_config_raises rt0
      { defaultConfig with subjects_range := (11, 11) } 0 emptyDB 0 5 3 0 11
      (fun _ => 0)).2.2.2.2.1 (by decide) (by decide) (by decide)
  · exact (seeding_invalid_config_raises rt0
      { defaultConfig with subjects_range := (11, 12) } 0 emptyDB 0 5 3 0 11
      (fun _ => 0)).2.2.2.2.2.1 (by decide) (by decide) (by decide)
  · exact (seeding_invalid_config_raises rt0
      { defaultConfig with
        teachers_range := (3, 3), subjects_range := (5, 5),
        students_range := (7, 2) } 0 emptyDB 0 5 3 0 11
      (fun _ => 0)).2.2.2.2.2.2.1 (by decide) (by decide) (by decide) (by decide)
      (by decide)
  · exact (seeding_invalid_config_raises rt0
      { defaultConfig with
        teachers_range := (3, 3), subjects_range := (5, 5),
        students_range := (1, 1), grades_range := (5, 3) } 0 emptyDB 0 5 3 0 11
      (fun _ => 0)).2.2.2.2.2.2.2 (by decide) (by decide) (by decide) (by decide)
      (by decide) (by decide) (by decide) (by decide)

/-! ### Evaluation of a run with all ranges fixed -/

/-- The round-trip configuration: every range collapsed to a point. -/
def cfg8 : SeederConfig :=
  { groups_count := 3, teachers_range := (3, 3), subjects_range := (5, 5)
    students_range := (10, 10), grades_range := (5, 5) }

theorem generate_teachers_fixed (rt : RT) (r0 nOff eOff c : Nat) :
    generate_teachers rt r0 nOff eOff (c, c) =
      .ok ((List.range c).map fun i =>
        ⟨i + 1, rt.names (nOff + i), rt.emails (eOff + i)⟩) := by
  unfold generate_teachers
  rw [randint_fixed]
  rfl

theorem generate_subjects_fixed (rt : RT) (r0 c : Nat) (t0 : Teacher)
    (ts : List Teacher) (hc : c ≤ 10) :
    generate_subjects rt r0 (t0 :: ts) (c, c) =
      .ok ((sampleAux rt.rnd (r0 + 1) c ACADEMIC_SUBJECTS).enum.map fun p =>
        ⟨p.1 + 1, p.2,
          ((t0 :: ts).getD (rt.rnd (r0 + 1 + c + p.1) % (t0 :: ts).length) t0).id⟩) := by
  unfold generate_subjects
  rw [randint_fixed]
  simp only [exbind_ok]
  rw [sample_ok _ _ _ _ (by simp [ACADEMIC_SUBJECTS]; omega)]
  rfl

theorem generate_students_fixed (rt : RT) (r0 nOff eOff c : Nat) (g0 : Group)
    (gs : List Group) :
    generate_students rt r0 nOff eOff (g0 :: gs) (c, c) =
      .ok ((List.range c).map fun j =>
        ⟨j + 1, rt.names (nOff + j), rt.emails (eOff + j),
          ((g0 :: gs).getD (rt.rnd (r0 + 1 + j) % (g0 :: gs).length) g0).id⟩) := by
  unfold generate_students
  rw [randint_fixed]
  rfl

theorem generate_grades_for_ok (rt : RT) (now : Int) (sid : Nat) (s0 : Subject)
    (ss : List Subject) :
    ∀ (k r0 : Nat), ∃ l, generate_grades_for rt r0 (s0 :: ss) sid now k = .ok l ∧
      l.length = k ∧ ∀ g ∈ l, g.studentId = sid := by
  intro k
  induction k with
  | zero => intro r0; exact ⟨[], rfl, rfl, by simp⟩
  | succ k ih =>
    intro r0
    obtain ⟨l, hl, hlen, hmem⟩ := ih (r0 + 3)
    refine ⟨⟨0, sid,
        ((s0 :: ss).getD (rt.rnd (r0 + 2) % (s0 :: ss).length) s0).id,
        ((1 + rt.rnd r0 % (100 - 1 + 1) : Nat) : Int),
        now - ((0 + rt.rnd (r0 + 1) % (365 - 0 + 1) : Nat) : Int)⟩ :: l, ?_, ?_, ?_⟩
    · simp only [generate_grades_for, randint_ok (rt.rnd r0) 1 100 (by omega),
        randint_ok (rt.rnd (r0 + 1)) 0 365 (by omega), exbind_ok, choice, hl]
    · simp [hlen]
    · intro g hg
      rcases List.mem_cons.mp hg with rfl | hg
      · rfl
      · exact hmem g hg

theorem generate_grades_fixed (rt : RT) (now : Int) (s0 : Subject)
    (ss : List Subject) (c : Nat) :
    ∀ (students : List Student) (r0 : Nat), ∃ l,
      generate_grades rt r0 (s0 :: ss) now (c, c) students = .ok l ∧
      l.length = c * students.length ∧
      (∀ g ∈ l, g.studentId ∈ students.map fun st => st.id) ∧
      ((students.map fun st => st.id).Nodup →
        ∀ st ∈ students,
          (l.filter fun g => decide (g.studentId = st.id)).length = c) := by
  intro students
  induction students with
  | nil => exact fun r0 => ⟨[], rfl, by simp, by simp, by simp⟩
  | cons st rest ih =>
    intro r0
    obtain ⟨blk, hblk, hblklen, hblkmem⟩ :=
      generate_grades_for_ok rt now st.id s0 ss c (r0 + 1)
    obtain ⟨l, hl, hlen, hmem, hcount⟩ := ih (r0 + 1 + 3 * c)
    refine ⟨blk ++ l, ?_, ?_, ?_, ?_⟩
    · simp only [generate_grades, randint_fixed, exbind_ok, hblk, hl]
    · simp only [List.length_append, hblklen, hlen, List.length_cons, Nat.mul_succ]
      omega
    · intro g hg
      rcases List.mem_append.mp hg with hg | hg
      · simp [hblkmem g hg]
      · have h2 := hmem g hg
        simp only [List.map_cons, List.mem_cons]
        exact Or.inr h2
    · intro hnd st' hst'
      simp only [List.map_cons, List.nodup_cons] at hnd
      rw [List.filter_append, List.length_append]
      rcases List.mem_cons.mp hst' with rfl | hst'
      · have hb : blk.filter (fun g => decide (g.studentId = st'.id)) = blk :=
          List.filter_eq_self.mpr fun g hg => decide_eq_true (by rw [hblkmem g hg])
        have hr : l.filter (fun g => decide (g.studentId = st'.id)) = [] :=
          List.filter_eq_nil_iff.mpr fun g hg => by
            simp only [decide_eq_true_eq]
            intro heq
            exact hnd.1 (heq ▸ hmem g hg)
        rw [hb, hr, hblklen]
        simp
      · have hne : st.id ≠ st'.id := by
          intro heq
          exact hnd.1 (heq ▸ List.mem_map_of_mem (fun x => x.id) hst')
        have hb : blk.filter (fun g => decide (g.studentId = st'.id)) = [] :=
          List.filter_eq_nil_iff.mpr fun g hg => by
            simp only [decide_eq_true_eq, hblkmem g hg]
            exact fun heq => hne heq
        rw [hb, hcount hnd.2 st' hst']
        simp

set_option maxHeartbeats 1000000 in
/-- C8: with `group_count=3`, `teacher_range=(3,3)`, `subject_range=(5,5)`,
`student_range=(10,10)` and `grades_per_student_range=(5,5)`, the seeding
run always succeeds and the committed store holds exactly 3 groups, 3
teachers, 5 subjects, 10 students and 50 grades — exactly 5 grades per
generated student. -/
theorem populate_fixed_config_counts (rt : RT) (now : Int) (db : DB) :
    (populate rt cfg8 now none ⟨db, db⟩).2 = none ∧
    (populate rt cfg8 now none ⟨db, db⟩).1.committed.groups.length = 3 ∧
    (populate rt cfg8 now none ⟨db, db⟩).1.committed.teachers.length = 3 ∧
    (populate rt cfg8 now none ⟨db, db⟩).1.committed.subjects.length = 5 ∧
    (populate rt cfg8 now none ⟨db, db⟩).1.committed.students.length = 10 ∧
    (populate rt cfg8 now none ⟨db, db⟩).1.committed.grades.length = 50 ∧
    ∀ st ∈ (populate rt cfg8 now none ⟨db, db⟩).1.committed.students,
      ((populate rt cfg8 now none ⟨db, db⟩).1.committed.grades.filter fun g =>
        decide (g.studentId = st.id)).length = 5 := by
  have htl : generate_teachers rt 0 0 0 cfg8.teachers_range =
      .ok [⟨1, rt.names 0, rt.emails 0⟩, ⟨2, rt.names 1, rt.emails 1⟩,
        ⟨3, rt.names 2, rt.emails 2⟩] := by
    rw [show cfg8.teachers_range = (3, 3) from rfl, generate_teachers_fixed]
    rfl
  set T3 : List Teacher := [⟨1, rt.names 0, rt.emails 0⟩,
    ⟨2, rt.names 1, rt.emails 1⟩, ⟨3, rt.names 2, rt.emails 2⟩] with hT3
  have hT3len : T3.length = 3 := by rw [hT3]; rfl
  have hsl0 := generate_subjects_fixed rt 1 5 (⟨1, rt.names 0, rt.emails 0⟩ : Teacher)
    [⟨2, rt.names 1, rt.emails 1⟩, ⟨3, rt.names 2, rt.emails 2⟩] (by omega)
  rw [show ((5 : Nat), (5 : Nat)) = cfg8.subjects_range from rfl] at hsl0
  rw [← hT3] at hsl0
  set SL : List Subject := (sampleAux rt.rnd (1 + 1) 5 ACADEMIC_SUBJECTS).enum.map
    (fun p => ⟨p.1 + 1, p.2,
      (T3.getD (rt.rnd (1 + 1 + 5 + p.1) % T3.length)
        ⟨1, rt.names 0, rt.emails 0⟩).id⟩) with hSL
  have hSLlen : SL.length = 5 := by
    rw [hSL, List.length_map, List.enum_length,
      sampleAux_length rt.rnd 5 (1 + 1) ACADEMIC_SUBJECTS (by decide)]
  have hSLne : SL ≠ [] := by
    intro hc
    rw [hc] at hSLlen
    exact absurd hSLlen (by decide)
  obtain ⟨sub0, ssub, hscons⟩ := List.exists_cons_of_ne_nil hSLne
  rw [hscons] at hsl0
  have hlen5 : (sub0 :: ssub).length = 5 := hscons ▸ hSLlen
  have hG : generate_groups cfg8.groups_count =
      [⟨1, "Group 1"⟩, ⟨2, "Group 2"⟩, ⟨3, "Group 3"⟩] := rfl
  set G3 : List Group := [⟨1, "Group 1"⟩, ⟨2, "Group 2"⟩, ⟨3, "Group 3"⟩] with hG3
  have hG3len : G3.length = 3 := by rw [hG3]; rfl
  have hstl := generate_students_fixed rt (2 + 2 * (sub0 :: ssub).length)
    T3.length T3.length 10 (⟨1, "Group 1"⟩ : Group) [⟨2, "Group 2"⟩, ⟨3, "Group 3"⟩]
  rw [show ((10 : Nat), (10 : Nat)) = cfg8.students_range from rfl] at hstl
  rw [← hG3] at hstl
  set ST : List Student := (List.range 10).map
    (fun j => ⟨j + 1, rt.names (T3.length + j), rt.emails (T3.length + j),
      (G3.getD (rt.rnd (2 + 2 * (sub0 :: ssub).length + 1 + j) % G3.length)
        ⟨1, "Group 1"⟩).id⟩) with hST
  have hSTlen : ST.length = 10 := by rw [hST]; simp
  obtain ⟨gl, hgl, hgllen, hglmem, hglcnt⟩ :=
    generate_grades_fixed rt now sub0 ssub 5 ST
      (3 + 2 * (sub0 :: ssub).length + ST.length)
  rw [show ((5 : Nat), (5 : Nat)) = cfg8.grades_range from rfl] at hgl
  unfold populate
  simp only []
  unfold runSteps
  simp only [failCheck_none, hG, htl, hsl0, hstl, hgl]
  simp only [commit, addGrades, addStudents, addSubjects, addTeachers, addGroups,
    purge_existing_data, emptyDB, List.nil_append]
  have hnd : (ST.map fun st => st.id).Nodup := by
    rw [hST, List.map_map]
    exact (List.nodup_range 10).map (add_left_injective 1)
  refine ⟨trivial, hG3len, hT3len, hlen5, hSTlen, ?_, ?_⟩
  · rw [hgllen, hSTlen]
  · intro st hst
    exact hglcnt hnd st hst


theorem generate_teachers_emails {rt : RT} {r0 nOff eOff : Nat} {rng : Nat × Nat}
    {tl : List Teacher} (h : generate_teachers rt r0 nOff eOff rng = .ok tl) :
    ∃ c, tl.map (fun t => t.email) =
      (List.range c).map fun i => rt.emails (eOff + i) := by
  unfold generate_teachers at h
  cases hr : randint (rt.rnd r0) rng.1 rng.2 with
  | error e =>
    rw [hr] at h
    exact absurd h (by simp [exbind_err])
  | ok c =>
    rw [hr] at h
    simp only [exbind_ok, Except.ok.injEq] at h
    subst h
    exact ⟨c, by rw [List.map_map]; rfl⟩

theorem generate_students_emails {rt : RT} {r0 nOff eOff : Nat}
    {groups : List Group} {rng : Nat × Nat} {stl : List Student}
    (h : generate_students rt r0 nOff eOff groups rng = .ok stl) :
    ∃ c, stl.map (fun st => st.email) =
      (List.range c).map fun j => rt.emails (eOff + j) := by
  unfold generate_students at h
  cases hr : randint (rt.rnd r0) rng.1 rng.2 with
  | error e =>
    rw [hr] at h
    exact absurd h (by simp [exbind_err])
  | ok c =>
    rw [hr] at h
    simp only [exbind_ok] at h
    cases groups with
    | nil =>
      simp only [] at h
      by_cases hc : c = 0
      · rw [if_pos hc] at h
        simp only [Except.ok.injEq] at h
        subst h
        exact ⟨0, by simp⟩
      · rw [if_neg hc] at h
        exact absurd h (by simp)
    | cons g0 gs =>
      simp only [Except.ok.injEq] at h
      subst h
      exact ⟨c, by rw [List.map_map]; rfl⟩

set_option maxHeartbeats 1000000 in
/-- C10: all emails generated within one seeding run are pairwise distinct
across teachers and students: both generators draw from the one
`Faker.unique.email()` stream of the seeder instance (teachers at offsets
`0..`, students continuing at offset `teachers.length`), and that stream
never repeats within a run. -/
theorem populate_unique_emails (rt : RT) (cfg : SeederConfig) (now : Int) (db : DB)
    (hinj : Function.Injective rt.emails)
    (hok : (populate rt cfg now none ⟨db, db⟩).2 = none) :
    (((populate rt cfg now none ⟨db, db⟩).1.committed.teachers.map fun t => t.email) ++
      ((populate rt cfg now none ⟨db, db⟩).1.committed.students.map fun st =>
        st.email)).Nodup := by
  unfold populate at hok ⊢
  simp only [] at hok ⊢
  cases hr : runSteps rt cfg now none (purge_existing_data ⟨db, db⟩) with
  | error es =>
    rw [hr] at hok
    simp at hok
  | ok s =>
    unfold runSteps at hr
    simp only [failCheck_none] at hr
    cases ht : generate_teachers rt 0 0 0 cfg.teachers_range with
    | error e =>
      rw [ht] at hr
      exact absurd hr (by simp)
    | ok tl =>
    rw [ht] at hr
    simp only [] at hr
    cases hsj : generate_subjects rt 1 tl cfg.subjects_range with
    | error e =>
      rw [hsj] at hr
      exact absurd hr (by simp)
    | ok sl =>
    rw [hsj] at hr
    simp only [] at hr
    cases hst : generate_students rt (2 + 2 * sl.length) tl.length tl.length
        (generate_groups cfg.groups_count) cfg.students_range with
    | error e =>
      rw [hst] at hr
      exact absurd hr (by simp)
    | ok stl =>
    rw [hst] at hr
    simp only [] at hr
    cases hg : generate_grades rt (3 + 2 * sl.length + stl.length) sl now
        cfg.grades_range stl with
    | error e =>
      rw [hg] at hr
      exact absurd hr (by simp)
    | ok gl =>
    rw [hg] at hr
    simp only [Except.ok.injEq] at hr
    subst hr
    simp only [commit, addGrades, addStudents, addSubjects, addTeachers, addGroups,
      purge_existing_data, emptyDB, List.nil_append]
    obtain ⟨ct, hct⟩ := generate_teachers_emails ht
    obtain ⟨cs, hcs⟩ := generate_students_emails hst
    rw [hct, hcs]
    simp only [Nat.zero_add]
    have hTlen : tl.length = ct := by
      have h2 := congrArg List.length hct
      simpa using h2
    have key : (List.range ct ++ (List.range cs).map fun j => tl.length + j).Nodup := by
      rw [List.nodup_append]
      refine ⟨List.nodup_range ct, (List.nodup_range cs).map (add_right_injective tl.length), ?_⟩
      intro a ha hb
      rw [List.mem_range] at ha
      obtain ⟨j, hj, hjeq⟩ := List.mem_map.mp hb
      omega
    have h2 := key.map hinj
    rw [List.map_append, List.map_map] at h2
    exact h2


/-- A concrete run-time source whose unique-email stream is injective. -/
def rtW : RT := ⟨fun _ => 0, fun _ => "N. Ame",
  fun n => String.mk (List.replicate n 'a')⟩

theorem rtW_emails_injective : Function.Injective rtW.emails := by
  intro a b h
  have h2 : List.replicate a 'a' = List.replicate b 'a' := congrArg String.data h
  have h3 := congrArg List.length h2
  simpa using h3

/-- Witness for C10: a successful concrete run with an injective email
stream yields pairwise-distinct emails. -/
theorem populate_unique_emails_witness :
    Function.Injective rtW.emails ∧
    (populate rtW cfg8 0 none ⟨emptyDB, emptyDB⟩).2 = none ∧
    (((populate rtW cfg8 0 none
        ⟨emptyDB, emptyDB⟩).1.committed.teachers.map fun t => t.email) ++
      ((populate rtW cfg8 0 none
        ⟨emptyDB, emptyDB⟩).1.committed.students.map fun st => st.email)).Nodup :=
  ⟨rtW_emails_injective, rfl,
    populate_unique_emails rtW cfg8 0 emptyDB rtW_emails_injective rfl⟩

end Uni
